import Mathlib

set_option maxHeartbeats 4000000
set_option maxRecDepth 100000

/-!
Verification of `src/Password_Policy_Checker.py`.

The Python module is embedded shallowly:
* `hashlib.sha256(password.encode()).hexdigest()` is modelled by an
  executable SHA-256 over the UTF-8 bytes of the string (namespace `SHA2`),
  producing the lowercase hexadecimal digest, exactly as `hashlib` does.
* The single mutable record `user_password_data` becomes a structure
  `UserPasswordData`; the functions that read or write it take the state
  explicitly and return the updated state.
* `time.time()` becomes an explicit rational-valued `now` parameter.
* `collections.deque(maxlen=24)` together with `.append` becomes a list
  that keeps only the most recent 24 entries (`dequeAppend`).
-/

namespace SHA2

/-- 2^32, the word modulus of SHA-256. -/
def M32 : Nat := 4294967296

/-- 2^64, the modulus of the message bit-length field. -/
def M64 : Nat := 18446744073709551616

/-- 2^512, the modulus of one 64-byte message block. -/
def M512 : Nat := 0x100000000000000000000000000000000000000000000000000000000000000000000000000000000000000000000000000000000000000000000000000000000

/-- Right rotation of a 32-bit word. -/
def rotr (n x : Nat) : Nat := ((x >>> n) ||| (x <<< (32 - n))) % M32

/-- SHA-256 `Ch` function. -/
def ch (x y z : Nat) : Nat := ((x &&& y) ^^^ ((x ^^^ 4294967295) &&& z)) % M32

/-- SHA-256 `Maj` function. -/
def maj (x y z : Nat) : Nat := ((x &&& y) ^^^ (x &&& z) ^^^ (y &&& z)) % M32

/-- SHA-256 big sigma 0. -/
def bigS0 (x : Nat) : Nat := (rotr 2 x ^^^ rotr 13 x ^^^ rotr 22 x) % M32

/-- SHA-256 big sigma 1. -/
def bigS1 (x : Nat) : Nat := (rotr 6 x ^^^ rotr 11 x ^^^ rotr 25 x) % M32

/-- SHA-256 small sigma 0. -/
def smallS0 (x : Nat) : Nat := (rotr 7 x ^^^ rotr 18 x ^^^ (x >>> 3)) % M32

/-- SHA-256 small sigma 1. -/
def smallS1 (x : Nat) : Nat := (rotr 17 x ^^^ rotr 19 x ^^^ (x >>> 10)) % M32

/-- The 64 SHA-256 round constants k0, ..., k63, packed big-endian into one
2048-bit number (k0 in the most significant 32 bits). -/
def Kpack : Nat := 0x428a2f9871374491b5c0fbcfe9b5dba53956c25b59f111f1923f82a4ab1c5ed5d807aa9812835b01243185be550c7dc372be5d7480deb1fe9bdc06a7c19bf174e49b69c1efbe47860fc19dc6240ca1cc2de92c6f4a7484aa5cb0a9dc76f988da983e5152a831c66db00327c8bf597fc7c6e00bf3d5a7914706ca63511429296727b70a852e1b21384d2c6dfc53380d13650a7354766a0abb81c2c92e92722c85a2bfe8a1a81a664bc24b8b70c76c51a3d192e819d6990624f40e3585106aa07019a4c1161e376c082748774c34b0bcb5391c0cb34ed8aa4a5b9cca4f682e6ff3748f82ee78a5636f84c878148cc7020890befffaa4506cebbef9a3f7c67178f2

/-- The SHA-256 initial hash value h0, ..., h7, packed big-endian into one
256-bit number (h0 in the most significant 32 bits). -/
def H0pack : Nat := 0x6a09e667bb67ae853c6ef372a54ff53a510e527f9b05688c1f83d9ab5be0cd19

/-- Apply a function `n` times, by primitive recursion on `n`. -/
def iter {A : Type} (f : A -> A) : Nat -> A -> A :=
  fun n => Nat.rec (motive := fun _ => A -> A) id (fun _ ih a => ih (f a)) n

/-- Word `i` (counting from the most significant) of a packed 8-word
state. -/
def word8 (s i : Nat) : Nat := (s >>> (32 * (7 - i))) % M32

/-- One round of the SHA-256 compression loop.  The loop state is
`(t, win, s)`: `t` is the round index, `win` the 16-word message-schedule
window `w t, ..., w (t+15)` packed big-endian (so `w t` sits in the top 32
bits), and `s` the 8 working variables `a, ..., h` packed big-endian (`a`
in the top 32 bits).  Each round consumes `w t` and the round constant
`k t`, shifts the window, and feeds in the next scheduled word by the small
sigma recurrence. -/
def step (x : Nat × Nat × Nat) : Nat × Nat × Nat :=
  let t := x.1
  let win := x.2.1
  let s := x.2.2
  let w := win >>> 480
  let a := s >>> 224
  let b := (s >>> 192) % M32
  let c := (s >>> 160) % M32
  let d := (s >>> 128) % M32
  let e := (s >>> 96) % M32
  let f := (s >>> 64) % M32
  let g := (s >>> 32) % M32
  let h := s % M32
  let kt := (Kpack >>> (32 * (63 - t))) % M32
  let t1 := (h + bigS1 e + ch e f g + kt + w) % M32
  let t2 := (bigS0 a + maj a b c) % M32
  let wNew := (smallS1 ((win >>> 32) % M32) + (win >>> 192) % M32 +
    smallS0 ((win >>> 448) % M32) + w) % M32
  (t + 1,
   ((win <<< 32) % M512) ||| wNew,
   ((t1 + t2) % M32) <<< 224 ||| a <<< 192 ||| b <<< 160 ||| c <<< 128 |||
     ((d + t1) % M32) <<< 96 ||| e <<< 64 ||| f <<< 32 ||| g)

/-- Word `i` of the word-wise mod-2^32 sum of two packed states, shifted
back into position. -/
def addw (hs r i : Nat) : Nat := ((word8 hs i + word8 r i) % M32) <<< (32 * (7 - i))

/-- Compress one 512-bit block into the packed 8-word hash state: run the
64 rounds, then add the result word-wise to the incoming state. -/
def compress (hs block : Nat) : Nat :=
  let r := (iter step 64 (0, block, hs)).2.2
  addw hs r 0 ||| addw hs r 1 ||| addw hs r 2 ||| addw hs r 3 |||
    addw hs r 4 ||| addw hs r 5 ||| addw hs r 6 ||| addw hs r 7

/-- SHA-256 of a message given as its byte length `l` and the big-endian
value `v` of its bytes (`v < 256 ^ l`): append the `0x80` byte, `k` zero
bytes so that the length is 56 mod 64, and the bit length as a 64-bit
big-endian integer; then fold the compression function over the 512-bit
blocks, starting from the initial hash value. -/
def sha256Pack (l v : Nat) : Nat :=
  let k := (119 - l % 64) % 64
  let padded := (v <<< (8 * (k + 9))) ||| (128 <<< (8 * (k + 8))) ||| ((8 * l) % M64)
  let nblocks := (l + k + 9) / 64
  (iter (fun x => (x.1 + 1,
      compress x.2 ((padded >>> (512 * (nblocks - 1 - x.1))) % M512)))
    nblocks ((0, H0pack) : Nat × Nat)).2

/-- Big-endian packing of a byte list: the packed value and `256 ^ length`. -/
def packBytes (bs : List Nat) : Nat × Nat :=
  List.rec (motive := fun _ => Nat × Nat) (0, 1)
    (fun b _ ih => (b * ih.2 + ih.1, 256 * ih.2)) bs

/-- Lowercase hexadecimal character of a nibble. -/
def hexChar (n : Nat) : Char :=
  if n < 10 then Char.ofNat (48 + n) else Char.ofNat (87 + n)

/-- The 64-character lowercase hexadecimal rendering of a packed 256-bit
digest, as `hexdigest()` produces it. -/
def toHex (v : Nat) : String :=
  String.mk ((iter (fun x : Nat × List Char => (x.1 / 16, hexChar (x.1 % 16) :: x.2))
    64 (v, [])).2)

/-- UTF-8 encoding of one character, as `str.encode()` produces it. -/
def utf8Char (c : Char) : List Nat :=
  let n := c.toNat
  if n < 128 then [n]
  else if n < 2048 then [192 + n / 64, 128 + n % 64]
  else if n < 65536 then [224 + n / 4096, 128 + (n / 64) % 64, 128 + n % 64]
  else [240 + n / 262144, 128 + (n / 4096) % 64, 128 + (n / 64) % 64, 128 + n % 64]

/-- UTF-8 bytes of a string, as Python's `password.encode()`. -/
def strBytes (s : String) : List Nat := s.data.flatMap utf8Char

end SHA2

/-- `hash_password` from the source: the lowercase hex SHA-256 digest of the
UTF-8 encoding of the password, as `hashlib.sha256(password.encode()).hexdigest()`. -/
def hash_password (password : String) : String :=
  let bs := SHA2.strBytes password
  SHA2.toHex (SHA2.sha256Pack bs.length (SHA2.packBytes bs).1)

/-- `PASSWORD_EXPIRATION_DAYS = 90`. -/
def PASSWORD_EXPIRATION_DAYS : ℚ := 90

/-- `PASSWORD_HISTORY_LIMIT = 24`. -/
def PASSWORD_HISTORY_LIMIT : Nat := 24

/-- The mutable record of the source: last-changed timestamp (`None`
initially) and the bounded password history. -/
structure UserPasswordData where
  last_password_changed : Option ℚ
  password_history : List String
deriving DecidableEq

/-- The initial value of `user_password_data`: timestamp unset, empty
history. -/
def user_password_data : UserPasswordData :=
  { last_password_changed := none, password_history := [] }

/-- `deque(maxlen=n).append`: append on the right, keeping only the most
recent `n` entries. -/
def dequeAppend (n : Nat) (d : List String) (x : String) : List String :=
  let d2 := d ++ [x]
  d2.drop (d2.length - n)

/-- `update_password_data`: set the timestamp to the current time, append the
password's fingerprint to the bounded history, return `True`. -/
def update_password_data (now : ℚ) (new_password : String) (s : UserPasswordData) :
    Bool × UserPasswordData :=
  (true,
   { last_password_changed := some now,
     password_history :=
       dequeAppend PASSWORD_HISTORY_LIMIT s.password_history (hash_password new_password) })

/-- `is_password_reused`: the fingerprint occurs in the history. Reads the
record and returns it unchanged. -/
def is_password_reused (new_password : String) (s : UserPasswordData) :
    Bool × UserPasswordData :=
  (s.password_history.contains (hash_password new_password), s)

/-- `is_password_expired`: `True` when the timestamp is unset or more than 90
days have elapsed. -/
def is_password_expired (now : ℚ) (s : UserPasswordData) : Bool :=
  match s.last_password_changed with
  | none => true
  | some t => decide ((now - t) / (24 * 3600) > PASSWORD_EXPIRATION_DAYS)

/-- Issue message for the length rule. -/
def lengthIssue : String := "Password must be at least 14 characters long."

/-- Issue message for the uppercase rule. -/
def upperIssue : String := "Password must contain at least one uppercase letter."

/-- Issue message for the lowercase rule. -/
def lowerIssue : String := "Password must contain at least one lowercase letter."

/-- Issue message for the digit rule. -/
def digitIssue : String := "Password must contain at least one digit."

/-- Issue message for the special-character rule. -/
def specialIssue : String := "Password must contain at least one special character."

/-- `re.search(r'[A-Z]', password)` is truthy. -/
def containsUppercase (s : String) : Bool :=
  s.data.any fun c => decide (65 ≤ c.toNat ∧ c.toNat ≤ 90)

/-- `re.search(r'[a-z]', password)` is truthy. -/
def containsLowercase (s : String) : Bool :=
  s.data.any fun c => decide (97 ≤ c.toNat ∧ c.toNat ≤ 122)

/-- The codepoint ranges of the Unicode decimal-digit characters (general
category Nd, Unicode 14.0): each range is a run of digits 0-9 of one
script. -/
def decimalDigitRanges : List (Nat × Nat) :=
  [(48, 57), (1632, 1641), (1776, 1785), (1984, 1993),
   (2406, 2415), (2534, 2543), (2662, 2671), (2790, 2799),
   (2918, 2927), (3046, 3055), (3174, 3183), (3302, 3311),
   (3430, 3439), (3558, 3567), (3664, 3673), (3792, 3801),
   (3872, 3881), (4160, 4169), (4240, 4249), (6112, 6121),
   (6160, 6169), (6470, 6479), (6608, 6617), (6784, 6793),
   (6800, 6809), (6992, 7001), (7088, 7097), (7232, 7241),
   (7248, 7257), (42528, 42537), (43216, 43225), (43264, 43273),
   (43472, 43481), (43504, 43513), (43600, 43609), (44016, 44025),
   (65296, 65305), (66720, 66729), (68912, 68921), (69734, 69743),
   (69872, 69881), (69942, 69951), (70096, 70105), (70384, 70393),
   (70736, 70745), (70864, 70873), (71248, 71257), (71360, 71369),
   (71472, 71481), (71904, 71913), (72016, 72025), (72784, 72793),
   (73040, 73049), (73120, 73129), (92768, 92777), (92864, 92873),
   (93008, 93017), (120782, 120831), (123200, 123209), (123632, 123641),
   (125264, 125273), (130032, 130041)]

/-- `re.search(r'\d', password)` is truthy: Python's `\d` on a `str`
matches every Unicode decimal digit (general category Nd), not only ASCII
0-9. -/
def containsDigitChar (s : String) : Bool :=
  s.data.any fun c =>
    decimalDigitRanges.any fun r => decide (r.1 ≤ c.toNat ∧ c.toNat ≤ r.2)

/-- The fixed special-character set of the strength checker. -/
def specialChars : List Char := "!@#$%^&*(),.?\":\x7b\x7d|<>".data

/-- `re.search(r'[!@#$%^&*(),.?\":{}|<>]', password)` is truthy. -/
def containsSpecial (s : String) : Bool :=
  s.data.any fun c => specialChars.contains c

/-- `check_password_strength`: collect the issue messages of the five rules
in source order; strong exactly when no issue was collected. -/
def check_password_strength (password : String) : Bool × List String :=
  let issues :=
    (if password.length < 14 then [lengthIssue] else []) ++
    (if containsUppercase password then [] else [upperIssue]) ++
    (if containsLowercase password then [] else [lowerIssue]) ++
    (if containsDigitChar password then [] else [digitIssue]) ++
    (if containsSpecial password then [] else [specialIssue])
  (issues.length == 0, issues)

/-- `check_password_strength` as a state transformer: its body never touches
`user_password_data`, so the record passes through unchanged. -/
def check_password_strength_st (password : String) (s : UserPasswordData) :
    (Bool × List String) × UserPasswordData :=
  (check_password_strength password, s)

/-- Record a sequence of password changes at time `now`, in order. -/
def recordAll (now : ℚ) (ps : List String) (s : UserPasswordData) : UserPasswordData :=
  ps.foldl (fun st p => (update_password_data now p st).2) s

/-- The last `n` elements of a list. -/
def lastN (n : Nat) (l : List String) : List String := l.drop (l.length - n)

/-- The 24 passwords recorded after the first one in the eviction scenario. -/
def fillPasswords : List String :=
  ["pw01", "pw02", "pw03", "pw04", "pw05", "pw06", "pw07", "pw08",
   "pw09", "pw10", "pw11", "pw12", "pw13", "pw14", "pw15", "pw16",
   "pw17", "pw18", "pw19", "pw20", "pw21", "pw22", "pw23", "pw24"]

/-! ### Helper lemmas about the bounded history -/

theorem dequeAppend_eq_lastN (n : Nat) (d : List String) (x : String) :
    dequeAppend n d x = lastN n (d ++ [x]) := rfl

theorem length_lastN (n : Nat) (l : List String) :
    (lastN n l).length = min n l.length := by
  unfold lastN
  rw [List.length_drop]
  omega

theorem lastN_append_lastN (n : Nat) (a m : List String) :
    lastN n (lastN n a ++ m) = lastN n (a ++ m) := by
  unfold lastN
  rcases Nat.le_total a.length n with h | h
  · rw [Nat.sub_eq_zero_of_le h, List.drop_zero]
  · rw [List.drop_append_eq_append_drop, List.drop_append_eq_append_drop,
      List.drop_drop]
    have hd : (a.drop (a.length - n)).length = n := by
      rw [List.length_drop]; omega
    congr 2
    · simp only [List.length_append, hd, List.length_drop]
      omega
    · simp only [List.length_append, hd, List.length_drop]
      omega

theorem dequeAppend_length_le (d : List String) (x : String) :
    (dequeAppend PASSWORD_HISTORY_LIMIT d x).length ≤ PASSWORD_HISTORY_LIMIT := by
  rw [dequeAppend_eq_lastN, length_lastN]
  omega

theorem dequeAppend_not_full (d : List String) (x : String)
    (h : d.length < PASSWORD_HISTORY_LIMIT) :
    dequeAppend PASSWORD_HISTORY_LIMIT d x = d ++ [x] := by
  rw [dequeAppend_eq_lastN]
  unfold lastN
  have : (d ++ [x]).length - PASSWORD_HISTORY_LIMIT = 0 := by
    rw [List.length_append]
    simp only [List.length_singleton]
    omega
  rw [this, List.drop_zero]

theorem dequeAppend_full (d : List String) (x : String)
    (h : d.length = PASSWORD_HISTORY_LIMIT) :
    dequeAppend PASSWORD_HISTORY_LIMIT d x = d.tail ++ [x] := by
  rw [dequeAppend_eq_lastN]
  unfold lastN
  have h1 : (d ++ [x]).length - PASSWORD_HISTORY_LIMIT = 1 := by
    rw [List.length_append]
    simp only [List.length_singleton]
    omega
  rw [h1, List.drop_append_eq_append_drop]
  have h2 : 1 - d.length = 0 := by
    unfold PASSWORD_HISTORY_LIMIT at h
    omega
  rw [h2, List.drop_zero, List.drop_one]

theorem mem_dequeAppend_self (d : List String) (x : String) :
    x ∈ dequeAppend PASSWORD_HISTORY_LIMIT d x := by
  unfold dequeAppend
  rw [List.drop_append_eq_append_drop]
  have h2 : (d ++ [x]).length - PASSWORD_HISTORY_LIMIT - d.length = 0 := by
    rw [List.length_append]
    simp only [List.length_singleton, PASSWORD_HISTORY_LIMIT]
    omega
  rw [h2, List.drop_zero]
  exact List.mem_append.2 (Or.inr (List.mem_singleton.2 rfl))

theorem recordAll_cons (now : ℚ) (p : String) (ps : List String) (s : UserPasswordData) :
    recordAll now (p :: ps) s = recordAll now ps (update_password_data now p s).2 := rfl

theorem recordAll_history (now : ℚ) (ps : List String) (s : UserPasswordData)
    (hs : s.password_history.length ≤ PASSWORD_HISTORY_LIMIT) :
    (recordAll now ps s).password_history =
      lastN PASSWORD_HISTORY_LIMIT (s.password_history ++ ps.map hash_password) := by
  induction ps generalizing s with
  | nil =>
    simp only [recordAll, List.foldl_nil, List.map_nil, List.append_nil]
    unfold lastN
    rw [Nat.sub_eq_zero_of_le hs, List.drop_zero]
  | cons p ps ih =>
    rw [recordAll_cons]
    have hlen : (update_password_data now p s).2.password_history.length ≤
        PASSWORD_HISTORY_LIMIT := dequeAppend_length_le _ _
    rw [ih _ hlen]
    show lastN PASSWORD_HISTORY_LIMIT
        (dequeAppend PASSWORD_HISTORY_LIMIT s.password_history (hash_password p) ++
          ps.map hash_password) = _
    rw [dequeAppend_eq_lastN, lastN_append_lastN, List.append_assoc]
    rfl

/-! ### Shared facts about the strength checker's issue list -/

theorem strength_issues_sublist (p : String) :
    List.Sublist (check_password_strength p).2
      [lengthIssue, upperIssue, lowerIssue, digitIssue, specialIssue] := by
  have sA : List.Sublist (if p.length < 14 then [lengthIssue] else []) [lengthIssue] := by
    split
    · exact List.Sublist.refl _
    · exact List.nil_sublist _
  have sB : List.Sublist (if containsUppercase p then [] else [upperIssue]) [upperIssue] := by
    split
    · exact List.nil_sublist _
    · exact List.Sublist.refl _
  have sC : List.Sublist (if containsLowercase p then [] else [lowerIssue]) [lowerIssue] := by
    split
    · exact List.nil_sublist _
    · exact List.Sublist.refl _
  have sD : List.Sublist (if containsDigitChar p then [] else [digitIssue]) [digitIssue] := by
    split
    · exact List.nil_sublist _
    · exact List.Sublist.refl _
  have sE : List.Sublist (if containsSpecial p then [] else [specialIssue]) [specialIssue] := by
    split
    · exact List.nil_sublist _
    · exact List.Sublist.refl _
  have hsub := List.Sublist.append sA
    (List.Sublist.append sB (List.Sublist.append sC (List.Sublist.append sD sE)))
  simpa [check_password_strength] using hsub

theorem strength_issues_nodup (p : String) : (check_password_strength p).2.Nodup :=
  List.Nodup.sublist (strength_issues_sublist p) (by decide)

/-! ### The claims -/

/-- C1: `check_password_strength` evaluates the five rules independently —
each rule's message is in the returned issue list exactly when that rule
fails, regardless of the other rules — and the returned boolean is true iff
the issue list is empty. -/
theorem C1_rules_independent_and_strong_iff_no_issues (p : String) :
    ((check_password_strength p).1 = true ↔ (check_password_strength p).2 = []) ∧
    (lengthIssue ∈ (check_password_strength p).2 ↔ p.length < 14) ∧
    (upperIssue ∈ (check_password_strength p).2 ↔ containsUppercase p = false) ∧
    (lowerIssue ∈ (check_password_strength p).2 ↔ containsLowercase p = false) ∧
    (digitIssue ∈ (check_password_strength p).2 ↔ containsDigitChar p = false) ∧
    (specialIssue ∈ (check_password_strength p).2 ↔ containsSpecial p = false) := by
  by_cases h1 : p.length < 14 <;> cases h2 : containsUppercase p <;>
    cases h3 : containsLowercase p <;> cases h4 : containsDigitChar p <;>
    cases h5 : containsSpecial p <;>
    simp [check_password_strength, h1, h2, h3, h4, h5, lengthIssue, upperIssue,
      lowerIssue, digitIssue, specialIssue]

/-- C2: a password of length at least 14 containing an uppercase letter, a
lowercase letter, a digit and a special character is reported strong with an
empty issue list. -/
theorem C2_strong_password_no_issues (p : String) (h1 : 14 ≤ p.length)
    (h2 : containsUppercase p = true) (h3 : containsLowercase p = true)
    (h4 : containsDigitChar p = true) (h5 : containsSpecial p = true) :
    check_password_strength p = (true, []) := by
  have h1' : ¬ p.length < 14 := Nat.not_lt.2 h1
  simp [check_password_strength, h1', h2, h3, h4, h5]

theorem C2_strong_password_no_issues_witness :
    14 ≤ ("Aa1!aaaaaaaaaa" : String).length ∧
    containsUppercase "Aa1!aaaaaaaaaa" = true ∧
    containsLowercase "Aa1!aaaaaaaaaa" = true ∧
    containsDigitChar "Aa1!aaaaaaaaaa" = true ∧
    containsSpecial "Aa1!aaaaaaaaaa" = true ∧
    check_password_strength "Aa1!aaaaaaaaaa" = (true, []) :=
  ⟨by decide, by decide, by decide, by decide, by decide,
   C2_strong_password_no_issues "Aa1!aaaaaaaaaa" (by decide) (by decide) (by decide)
     (by decide) (by decide)⟩

/-- C3: every password shorter than 14 characters gets the length issue in
its issue list, and is reported not strong. -/
theorem C3_short_password_reports_length_issue (p : String) (h : p.length < 14) :
    lengthIssue ∈ (check_password_strength p).2 ∧
    (check_password_strength p).1 = false := by
  constructor
  · simp [check_password_strength, h]
  · simp [check_password_strength, h]

theorem C3_short_password_reports_length_issue_witness :
    ("short" : String).length < 14 ∧
    (lengthIssue ∈ (check_password_strength "short").2 ∧
      (check_password_strength "short").1 = false) :=
  ⟨by decide, C3_short_password_reports_length_issue "short" (by decide)⟩

/-- C5: recording a password change and immediately checking reuse of the
same password returns true, for every password and every record state. -/
theorem C5_record_then_reuse_roundtrip (now : ℚ) (p : String) (s : UserPasswordData) :
    (is_password_reused p (update_password_data now p s).2).1 = true := by
  have hx : hash_password p ∈
      dequeAppend PASSWORD_HISTORY_LIMIT s.password_history (hash_password p) :=
    mem_dequeAppend_self _ _
  show (dequeAppend PASSWORD_HISTORY_LIMIT s.password_history
      (hash_password p)).contains (hash_password p) = true
  exact List.elem_iff.2 hx

/-- C6: `is_password_expired` is true iff the timestamp is unset or more
than 90 days have elapsed; in particular it is true on the initial record
and false immediately after a change is recorded. -/
theorem C6_expired_characterisation (now : ℚ) (p : String) (s : UserPasswordData) :
    (is_password_expired now s = true ↔
      s.last_password_changed = none ∨
        ∃ t, s.last_password_changed = some t ∧
          PASSWORD_EXPIRATION_DAYS * (24 * 3600) < now - t) ∧
    is_password_expired now user_password_data = true ∧
    is_password_expired now (update_password_data now p s).2 = false := by
  refine ⟨?_, rfl, ?_⟩
  · cases hs : s.last_password_changed with
    | none => simp [is_password_expired, hs]
    | some t =>
      have hiff : PASSWORD_EXPIRATION_DAYS < (now - t) / (24 * 3600) ↔
          PASSWORD_EXPIRATION_DAYS * (24 * 3600) < now - t :=
        lt_div_iff₀ (by norm_num)
      constructor
      · intro h
        refine Or.inr ⟨t, rfl, ?_⟩
        have h2 : PASSWORD_EXPIRATION_DAYS < (now - t) / (24 * 3600) := by
          simpa [is_password_expired, hs] using h
        exact hiff.1 h2
      · rintro (h | ⟨t', ht', hlt⟩)
        · exact Option.noConfusion h
        · injection ht' with ht'
          subst ht'
          simp only [is_password_expired, hs, decide_eq_true_iff, gt_iff_lt]
          exact hiff.2 hlt
  · show is_password_expired now
      { last_password_changed := some now, password_history := _ } = false
    simp [is_password_expired, PASSWORD_EXPIRATION_DAYS]

/-- C7: `update_password_data` returns true for every input, sets the
timestamp to the current time, and appends the fingerprint, evicting the
oldest entry exactly when the history is at capacity. -/
theorem C7_update_appends_and_succeeds (now : ℚ) (p : String) (s : UserPasswordData)
    (h : s.password_history.length ≤ PASSWORD_HISTORY_LIMIT) :
    (update_password_data now p s).1 = true ∧
    (update_password_data now p s).2.last_password_changed = some now ∧
    (update_password_data now p s).2.password_history =
      (if s.password_history.length < PASSWORD_HISTORY_LIMIT then s.password_history
       else s.password_history.tail) ++ [hash_password p] := by
  refine ⟨rfl, rfl, ?_⟩
  by_cases hlt : s.password_history.length < PASSWORD_HISTORY_LIMIT
  · rw [if_pos hlt]
    exact dequeAppend_not_full _ _ hlt
  · rw [if_neg hlt]
    exact dequeAppend_full _ _ (le_antisymm h (Nat.le_of_not_lt hlt))

theorem C7_update_appends_and_succeeds_witness :
    user_password_data.password_history.length ≤ PASSWORD_HISTORY_LIMIT ∧
    ((update_password_data 0 "abc" user_password_data).1 = true ∧
      (update_password_data 0 "abc" user_password_data).2.last_password_changed = some 0 ∧
      (update_password_data 0 "abc" user_password_data).2.password_history =
        (if user_password_data.password_history.length < PASSWORD_HISTORY_LIMIT
         then user_password_data.password_history
         else user_password_data.password_history.tail) ++ [hash_password "abc"]) :=
  ⟨by decide, C7_update_appends_and_succeeds 0 "abc" user_password_data (by decide)⟩

/-- C8: the strength checker is total: every string yields a result whose
issue list draws from the five fixed messages (so at most five issues), and
the empty string simply yields all five issues rather than an error. -/
theorem C8_strength_checker_total (p : String) :
    (check_password_strength p).2.length ≤ 5 ∧
    (∀ m ∈ (check_password_strength p).2,
      m ∈ [lengthIssue, upperIssue, lowerIssue, digitIssue, specialIssue]) ∧
    check_password_strength "" =
      (false, [lengthIssue, upperIssue, lowerIssue, digitIssue, specialIssue]) := by
  refine ⟨?_, ?_, by decide⟩
  · simpa using (strength_issues_sublist p).length_le
  · exact fun m hm => (strength_issues_sublist p).subset hm

/-- C9: the reuse check and the strength check leave the password record
unchanged. -/
theorem C9_reuse_and_strength_read_only (p : String) (s : UserPasswordData) :
    (is_password_reused p s).2 = s ∧ (check_password_strength_st p s).2 = s :=
  ⟨rfl, rfl⟩

/-- C10: the issue list always lists failed rules in the fixed source order
(length, uppercase, lowercase, digit, special), each message at most once. -/
theorem C10_issue_order_fixed (p : String) :
    List.Sublist (check_password_strength p).2
      [lengthIssue, upperIssue, lowerIssue, digitIssue, specialIssue] ∧
    (check_password_strength p).2.Nodup :=
  ⟨strength_issues_sublist p, strength_issues_nodup p⟩

/-- C4: the history never exceeds capacity 24 and the oldest entry is
evicted first when a record-change would exceed capacity; after recording
25 passwords with fresh fingerprints into the initially empty record, the
reuse check on the first of them returns false. -/
theorem C4_capacity_and_fifo_eviction (now : ℚ) (p0 : String) (rest : List String)
    (s : UserPasswordData) (hlen : rest.length = PASSWORD_HISTORY_LIMIT)
    (hfresh : hash_password p0 ∉ rest.map hash_password) :
    (update_password_data now p0 s).2.password_history.length ≤ PASSWORD_HISTORY_LIMIT ∧
    (s.password_history.length = PASSWORD_HISTORY_LIMIT →
      (update_password_data now p0 s).2.password_history =
        s.password_history.tail ++ [hash_password p0]) ∧
    (is_password_reused p0 (recordAll now (p0 :: rest) user_password_data)).1 = false := by
  refine ⟨dequeAppend_length_le _ _, fun hfull => dequeAppend_full _ _ hfull, ?_⟩
  have hist : (recordAll now (p0 :: rest) user_password_data).password_history =
      lastN PASSWORD_HISTORY_LIMIT
        (user_password_data.password_history ++ (p0 :: rest).map hash_password) :=
    recordAll_history now (p0 :: rest) user_password_data (by decide)
  rw [show user_password_data.password_history = ([] : List String) from rfl,
    List.nil_append, List.map_cons] at hist
  have hdrop : lastN PASSWORD_HISTORY_LIMIT
      (hash_password p0 :: rest.map hash_password) = rest.map hash_password := by
    unfold lastN
    have hl : (hash_password p0 :: rest.map hash_password).length -
        PASSWORD_HISTORY_LIMIT = 1 := by
      rw [List.length_cons, List.length_map, hlen]
      simp [PASSWORD_HISTORY_LIMIT]
    rw [hl, List.drop_one, List.tail_cons]
  show (recordAll now (p0 :: rest) user_password_data).password_history.contains
      (hash_password p0) = false
  rw [hist, hdrop]
  exact Bool.eq_false_iff.2 (fun hc => hfresh (List.elem_iff.1 hc))

theorem C4_capacity_and_fifo_eviction_witness :
    fillPasswords.length = PASSWORD_HISTORY_LIMIT ∧
    hash_password "pw00" ∉ fillPasswords.map hash_password ∧
    (is_password_reused "pw00"
      (recordAll 0 ("pw00" :: fillPasswords) user_password_data)).1 = false := by
  have hfresh : hash_password "pw00" ∉ fillPasswords.map hash_password := by decide
  exact ⟨rfl, hfresh,
    (C4_capacity_and_fifo_eviction 0 "pw00" fillPasswords user_password_data
      rfl hfresh).2.2⟩
